import Mathlib

/-!
Formalization of the SLA lifecycle core of the Incident-SLA-Tracker service.

Timestamps are modelled as integers (seconds since an arbitrary epoch); a
`datetime` becomes `Int`, a nullable `datetime` becomes `Option Int`, and a
`timedelta` becomes `Int`.  Each definition is a direct translation of the
Python function of the same name.
-/

namespace SLATracker

/-- `SLAStatus` enum from `app/models/sla.py`. -/
inductive SLAStatus where
  | ACTIVE
  | PAUSED
  | BREACHED
  | MET
deriving DecidableEq

/-- `IncidentStatus` enum from `app/models/incident.py`. -/
inductive IncidentStatus where
  | OPEN
  | IN_PROGRESS
  | RESOLVED
  | CLOSED
deriving DecidableEq

/-- `IncidentPriority` enum from `app/models/incident.py`. -/
inductive IncidentPriority where
  | CRITICAL
  | HIGH
  | MEDIUM
  | LOW
deriving DecidableEq

/-- The `.value` of an `IncidentPriority` member (the `str`-enum payload). -/
def priorityValue : IncidentPriority → String
  | .CRITICAL => "critical"
  | .HIGH => "high"
  | .MEDIUM => "medium"
  | .LOW => "low"

/-- `SLA` row from `app/models/sla.py` (columns only; relationships are
carried separately where a query joins them). -/
structure SLA where
  incident_id : Nat
  response_deadline : Int
  resolution_deadline : Int
  status : SLAStatus
  response_at : Option Int
  paused_at : Option Int
  paused_duration : Int
  breach_notified_at : Option Int
deriving DecidableEq

/-- `User` row from `app/models/user.py` (the fields the SLA checker reads). -/
structure User where
  id : Nat
  email : String
deriving DecidableEq

/-- `Incident` row from `app/models/incident.py`, together with its `sla`
ORM relationship (`Incident.sla` is nullable one-to-one). -/
structure Incident where
  id : Nat
  title : String
  description : String
  status : IncidentStatus
  priority : IncidentPriority
  reporter_id : Nat
  assignee_id : Option Nat
  resolved_at : Option Int
  closed_at : Option Int
  deleted_at : Option Int
  sla : Option SLA
deriving DecidableEq

/-- `SLA.is_response_breached` from `app/models/sla.py`: `response_at` unset
and the current time strictly past `response_deadline`.  The current time,
read from the wall clock in the source, is an explicit parameter here. -/
def is_response_breached (now : Int) (s : SLA) : Bool :=
  match s.response_at with
  | some _ => false
  | none => decide (s.response_deadline < now)

/-- `SLA.is_resolution_breached` from `app/models/sla.py`: status is not MET
and the current time strictly past `resolution_deadline`.  The current time,
read from the wall clock in the source, is an explicit parameter here. -/
def is_resolution_breached (now : Int) (s : SLA) : Bool :=
  if s.status = SLAStatus.MET then false
  else decide (s.resolution_deadline < now)

/-- The SLA-policy fields of `Settings` from `app/config.py` (field defaults
are the source's defaults; the non-SLA settings are not referenced by the
SLA core and are omitted). -/
structure Settings where
  sla_critical_response : Int := 1
  sla_critical_resolution : Int := 4
  sla_high_response : Int := 4
  sla_high_resolution : Int := 24
  sla_medium_response : Int := 8
  sla_medium_resolution : Int := 72
  sla_low_response : Int := 24
  sla_low_resolution : Int := 168
deriving DecidableEq

/-- The global `settings` instance from `app/config.py` (all defaults). -/
def defaultSettings : Settings := {}

/-- ASCII lowering of one character, as Python's `str.lower` acts on the
ASCII priority strings used here. -/
def pyLowerChar (c : Char) : Char :=
  if 'A' ≤ c ∧ c ≤ 'Z' then Char.ofNat (c.toNat + 32) else c

/-- `priority.lower()` from `Settings.get_sla_deadlines`. -/
def pyLower (s : String) : String :=
  String.mk (s.data.map pyLowerChar)

/-- `Settings.get_sla_deadlines` from `app/config.py`: lowercase the priority
string, match it against the four known priorities, and fall back to the
medium policy.  Returns `(response_hours, resolution_hours)`. -/
def get_sla_deadlines (st : Settings) (priority : String) : Int × Int :=
  let priority_lower := pyLower priority
  if priority_lower = "critical" then
    (st.sla_critical_response, st.sla_critical_resolution)
  else if priority_lower = "high" then
    (st.sla_high_response, st.sla_high_resolution)
  else if priority_lower = "medium" then
    (st.sla_medium_response, st.sla_medium_resolution)
  else if priority_lower = "low" then
    (st.sla_low_response, st.sla_low_resolution)
  else
    (st.sla_medium_response, st.sla_medium_resolution)

/-- `add_hours` from `app/utils/datetime_utils.py`, on integer seconds. -/
def add_hours (dt : Int) (hours : Int) : Int :=
  dt + hours * 3600

/-- Creation payload (`IncidentCreate` schema): the fields `create_incident`
reads. -/
structure IncidentCreateData where
  title : String
  description : String
  priority : IncidentPriority
deriving DecidableEq

/-- `IncidentService.create_incident` from `app/services/incident_service.py`:
builds the incident with status OPEN, looks up the SLA policy for the
incident's priority, and creates the single SLA with deadlines offset from
the creation time; both rows are added in the same transaction, modelled as
the function returning the pair.  The SLA's unset columns take their column
defaults (`status = ACTIVE`, `paused_duration = 0`). -/
def create_incident (st : Settings) (now : Int) (freshId : Nat)
    (incident_data : IncidentCreateData) (reporter_id : Nat) : Incident × SLA :=
  let incident : Incident :=
    { id := freshId
      title := incident_data.title
      description := incident_data.description
      status := IncidentStatus.OPEN
      priority := incident_data.priority
      reporter_id := reporter_id
      assignee_id := none
      resolved_at := none
      closed_at := none
      deleted_at := none
      sla := none }
  let sla_deadlines := get_sla_deadlines st (priorityValue incident.priority)
  let sla : SLA :=
    { incident_id := incident.id
      response_deadline := add_hours now sla_deadlines.1
      resolution_deadline := add_hours now sla_deadlines.2
      status := SLAStatus.ACTIVE
      response_at := none
      paused_at := none
      paused_duration := 0
      breach_notified_at := none }
  (incident, sla)

/-- `IncidentService.get_incident`: select the incident by id among
non-soft-deleted rows. -/
def get_incident (db : List Incident) (incident_id : Nat) : Option Incident :=
  db.find? (fun i => i.id == incident_id && i.deleted_at.isNone)

/-- The body of `IncidentService.update_status` applied to a fetched
incident: write the new status; on resolving with `resolved_at` unset, stamp
`resolved_at` and set the related SLA's status to MET when an SLA exists; on
closing with `closed_at` unset, stamp `closed_at`. -/
def applyStatusUpdate (now : Int) (newStatus : IncidentStatus)
    (inc : Incident) : Incident :=
  let inc1 : Incident := { inc with status := newStatus }
  let inc2 : Incident :=
    if newStatus = IncidentStatus.RESOLVED ∧ inc1.resolved_at = none then
      let incR : Incident := { inc1 with resolved_at := some now }
      match incR.sla with
      | some s => { incR with sla := some { s with status := SLAStatus.MET } }
      | none => incR
    else inc1
  if newStatus = IncidentStatus.CLOSED ∧ inc2.closed_at = none then
    { inc2 with closed_at := some now }
  else inc2

/-- `IncidentService.update_status` from `app/services/incident_service.py`:
fetch the live incident (none for missing or soft-deleted ids) and apply the
status update, returning the updated incident. -/
def update_status (db : List Incident) (incident_id : Nat)
    (newStatus : IncidentStatus) (now : Int) : Option Incident :=
  (get_incident db incident_id).map (applyStatusUpdate now newStatus)

/-- One row of the SLA checker's candidate query from
`app/tasks/sla_checker.py`: `select(SLA, Incident, User)` joining the SLA's
incident and outer-joining the incident's assignee. -/
structure ScanRow where
  sla : SLA
  incident : Incident
  assignee : Option User
deriving DecidableEq

/-- A queued `send_sla_breach_notification.delay(...)` call: the breach
notification intent the scanner emits. -/
structure BreachIntent where
  incident_id : Nat
  assignee_email : String
  breach_type : String
deriving DecidableEq

/-- The `where` clause of the breach query in `check_sla_breaches`
(`app/tasks/sla_checker.py`): SLA ACTIVE, and (response deadline passed with
no response, or resolution deadline passed with the incident unresolved),
and no breach notification recorded yet.  There is no filter on
`Incident.deleted_at`. -/
def breachCandidate (now : Int) (r : ScanRow) : Bool :=
  decide (r.sla.status = SLAStatus.ACTIVE
    ∧ ((r.sla.response_at = none ∧ r.sla.response_deadline < now)
        ∨ (r.sla.resolution_deadline < now ∧ r.incident.resolved_at = none))
    ∧ r.sla.breach_notified_at = none)

/-- The per-row SLA mutation in the scanner loop: mark the SLA BREACHED and
stamp `breach_notified_at`. -/
def markBreached (now : Int) (s : SLA) : SLA :=
  { s with status := SLAStatus.BREACHED, breach_notified_at := some now }

/-- `breach_type = "Response" if not sla.response_at else "Resolution"`. -/
def breachType (s : SLA) : String :=
  if s.response_at = none then "Response" else "Resolution"

/-- The notification decision in the scanner loop: `if assignee and
assignee.email:` queue a breach notification to the assignee (Python
truthiness: an absent assignee or an empty email string both skip it). -/
def rowIntent (r : ScanRow) : Option BreachIntent :=
  match r.assignee with
  | some u =>
      if u.email ≠ "" then
        some { incident_id := r.incident.id
               assignee_email := u.email
               breach_type := breachType r.sla }
      else none
  | none => none

/-- The committed effect of one scanner iteration on a row: candidates are
marked breached, other rows are untouched. -/
def stepRow (now : Int) (r : ScanRow) : ScanRow :=
  if breachCandidate now r then { r with sla := markBreached now r.sla } else r

/-- Whether the scanner queues a breach notification for a row it visits. -/
def rowEmits (now : Int) (r : ScanRow) : Bool :=
  breachCandidate now r && (rowIntent r).isSome

/-- Session-local accumulator of a `check_sla_breaches` run: rows processed
so far (uncommitted), `.delay` calls already made, the two counters, and
whether an exception has been raised. -/
structure ScanState where
  pending : List ScanRow
  emitted : List BreachIntent
  breaches_detected : Nat
  notifications_sent : Nat
  failed : Bool
deriving DecidableEq

/-- The row loop of `check_sla_breaches`, with fault injection on the
notification queue: when `failAt = some k`, the `(k+1)`-th
`send_sla_breach_notification.delay` call raises instead of queueing, ending
the run early (the remaining rows are never visited). -/
def scanGo (now : Int) (failAt : Option Nat) :
    List ScanRow → ScanState → ScanState
  | [], acc => acc
  | r :: rest, acc =>
      if breachCandidate now r then
        let acc1 : ScanState :=
          { acc with
              pending := acc.pending ++ [{ r with sla := markBreached now r.sla }]
              breaches_detected := acc.breaches_detected + 1 }
        match rowIntent r with
        | some intent =>
            if failAt = some acc1.notifications_sent then
              { acc1 with failed := true }
            else
              scanGo now failAt rest
                { acc1 with
                    emitted := acc1.emitted ++ [intent]
                    notifications_sent := acc1.notifications_sent + 1 }
        | none => scanGo now failAt rest acc1
      else
        scanGo now failAt rest { acc with pending := acc.pending ++ [r] }

/-- Result of one `check_sla_breaches` run: the database state after the run
(the session commit, or the rollback on error), the breach notifications
queued to the broker (queued `.delay` calls are external effects and survive
a later rollback), and the returned counts — `some (breaches_detected,
notifications_sent)` from the success return, `none` from the error return,
which carries no counts. -/
structure ScanOutcome where
  state : List ScanRow
  intents : List BreachIntent
  report : Option (Nat × Nat)
deriving DecidableEq

/-- `check_sla_breaches` from `app/tasks/sla_checker.py`, with fault
injection (`failAt`): run the row loop in one session; on an exception the
session closes without committing, so every SLA mutation of this run is
rolled back and the error return carries no counts; on success the single
`session.commit()` publishes all mutations and the counts are returned. -/
def check_sla_breaches_run (now : Int) (failAt : Option Nat)
    (db : List ScanRow) : ScanOutcome :=
  let fin := scanGo now failAt db
    { pending := [], emitted := [], breaches_detected := 0
      notifications_sent := 0, failed := false }
  if fin.failed then
    { state := db, intents := fin.emitted, report := none }
  else
    { state := fin.pending, intents := fin.emitted
      report := some (fin.breaches_detected, fin.notifications_sent) }

/-- `check_sla_breaches` on the fault-free path. -/
def check_sla_breaches (now : Int) (db : List ScanRow) : ScanOutcome :=
  check_sla_breaches_run now none db

/-- Modelled from the spec: the repository declares the SLA pause state
(`paused_at`, `paused_duration` columns in `app/models/sla.py`, and the
`SLAPauseRequest` schema) but ships no `pause` transition under `src/`; this
follows §4.2 of the spec: valid only from ACTIVE, sets `paused_at = now` and
status PAUSED, otherwise an explicit error. -/
def pause (now : Int) (s : SLA) : Except String SLA :=
  if s.status = SLAStatus.ACTIVE then
    Except.ok { s with status := SLAStatus.PAUSED, paused_at := some now }
  else Except.error "pause: SLA is not ACTIVE"

/-- Modelled from the spec: the repository declares the SLA pause state and
the `SLAResumeRequest` schema but ships no `resume` transition under `src/`;
this follows §4.2 of the spec: valid only from PAUSED, adds
`now - paused_at` to `paused_duration`, clears `paused_at`, sets status
ACTIVE, otherwise an explicit error. -/
def resume (now : Int) (s : SLA) : Except String SLA :=
  match s.status, s.paused_at with
  | SLAStatus.PAUSED, some p =>
      Except.ok { s with
        status := SLAStatus.ACTIVE
        paused_at := none
        paused_duration := s.paused_duration + (now - p) }
  | _, _ => Except.error "resume: SLA is not PAUSED"

/-! Concrete states used to evaluate the definitions. -/

/-- An SLA whose resolution deadline (10) is already past at time 20. -/
def lateSLA : SLA :=
  { incident_id := 1, response_deadline := 5, resolution_deadline := 10
    status := SLAStatus.ACTIVE, response_at := some 3, paused_at := none
    paused_duration := 0, breach_notified_at := none }

/-- A live incident owning `lateSLA`. -/
def lateIncident : Incident :=
  { id := 1, title := "db outage", description := "primary db down"
    status := IncidentStatus.IN_PROGRESS, priority := IncidentPriority.HIGH
    reporter_id := 7, assignee_id := some 2, resolved_at := none
    closed_at := none, deleted_at := none, sla := some lateSLA }

/-- A live incident with no SLA attached. -/
def slaLessIncident : Incident :=
  { id := 4, title := "request", description := "access request"
    status := IncidentStatus.OPEN, priority := IncidentPriority.LOW
    reporter_id := 7, assignee_id := none, resolved_at := none
    closed_at := none, deleted_at := none, sla := none }

/-- An overdue ACTIVE SLA (both deadlines past at time 100, nothing
recorded). -/
def overdueSLA : SLA :=
  { incident_id := 11, response_deadline := 5, resolution_deadline := 10
    status := SLAStatus.ACTIVE, response_at := none, paused_at := none
    paused_duration := 0, breach_notified_at := none }

/-- A scan row for an overdue SLA with an assigned user. -/
def overdueRow : ScanRow :=
  { sla := overdueSLA
    incident :=
      { id := 11, title := "api errors", description := "5xx spike"
        status := IncidentStatus.IN_PROGRESS, priority := IncidentPriority.HIGH
        reporter_id := 7, assignee_id := some 2, resolved_at := none
        closed_at := none, deleted_at := none, sla := none }
    assignee := some { id := 2, email := "oncall@example.com" } }

/-- A second overdue row, for a different incident and assignee. -/
def overdueRow2 : ScanRow :=
  { sla := { overdueSLA with incident_id := 12 }
    incident :=
      { id := 12, title := "disk full", description := "var full"
        status := IncidentStatus.IN_PROGRESS, priority := IncidentPriority.HIGH
        reporter_id := 7, assignee_id := some 3, resolved_at := none
        closed_at := none, deleted_at := none, sla := none }
    assignee := some { id := 3, email := "sre@example.com" } }

/-- An ACTIVE SLA past its nominal resolution deadline (10) but, counting the
accumulated paused duration (5), not past the effective deadline at time
12. -/
def pausedCreditSLA : SLA :=
  { incident_id := 21, response_deadline := 1, resolution_deadline := 10
    status := SLAStatus.ACTIVE, response_at := some 1, paused_at := none
    paused_duration := 5, breach_notified_at := none }

/-- A scan row whose incident is soft-deleted (`deleted_at` set) while its
SLA is overdue and ACTIVE. -/
def deletedIncidentRow : ScanRow :=
  { sla := { overdueSLA with incident_id := 31 }
    incident :=
      { id := 31, title := "stale", description := "old incident"
        status := IncidentStatus.IN_PROGRESS, priority := IncidentPriority.HIGH
        reporter_id := 7, assignee_id := some 2, resolved_at := none
        closed_at := none, deleted_at := some 50, sla := none }
    assignee := some { id := 2, email := "oncall@example.com" } }

/-- A scan row whose incident has an assignee whose email is the empty
string. -/
def emptyEmailRow : ScanRow :=
  { sla := { overdueSLA with incident_id := 41 }
    incident :=
      { id := 41, title := "import stuck", description := "job hangs"
        status := IncidentStatus.IN_PROGRESS, priority := IncidentPriority.HIGH
        reporter_id := 7, assignee_id := some 9, resolved_at := none
        closed_at := none, deleted_at := none, sla := none }
    assignee := some { id := 9, email := "" } }

/-- A PAUSED SLA with `paused_at` set, used to exercise `resume`. -/
def pausedSLA : SLA :=
  { incident_id := 51, response_deadline := 100, resolution_deadline := 200
    status := SLAStatus.PAUSED, response_at := none, paused_at := some 30
    paused_duration := 4, breach_notified_at := none }

/-! Helper lemmas about the scanner loop. -/

theorem scanGo_none_eq (now : Int) (rows : List ScanRow) :
    ∀ acc : ScanState,
      scanGo now none rows acc =
        { pending := acc.pending ++ rows.map (stepRow now)
          emitted :=
            acc.emitted ++ (rows.filter (breachCandidate now)).filterMap rowIntent
          breaches_detected :=
            acc.breaches_detected + (rows.filter (breachCandidate now)).length
          notifications_sent :=
            acc.notifications_sent +
              ((rows.filter (breachCandidate now)).filterMap rowIntent).length
          failed := acc.failed } := by
  induction rows with
  | nil => intro acc; simp [scanGo]
  | cons r rest ih =>
    intro acc
    cases hc : breachCandidate now r with
    | true =>
        cases hi : rowIntent r with
        | some intent =>
            simp only [scanGo, hc, hi, if_true, reduceCtorEq, if_false]
            rw [ih]
            simp [List.filter_cons, hc, hi, stepRow, List.append_assoc,
              Nat.add_assoc, Nat.add_comm, Nat.add_left_comm]
        | none =>
            simp only [scanGo, hc, hi, if_true]
            rw [ih]
            simp [List.filter_cons, hc, hi, stepRow, List.append_assoc,
              Nat.add_assoc, Nat.add_comm, Nat.add_left_comm]
    | false =>
        simp only [scanGo, hc, Bool.false_eq_true, if_false]
        rw [ih]
        simp [List.filter_cons, hc, stepRow]

/-- The committed state of a fault-free scan: candidates marked breached,
everything else untouched, positions preserved. -/
theorem check_sla_breaches_state (now : Int) (db : List ScanRow) :
    (check_sla_breaches now db).state = db.map (stepRow now) := by
  simp [check_sla_breaches, check_sla_breaches_run, scanGo_none_eq]

/-- The notification intents of a fault-free scan: one per candidate row
that has a notifiable assignee, in row order. -/
theorem check_sla_breaches_intents (now : Int) (db : List ScanRow) :
    (check_sla_breaches now db).intents =
      (db.filter (breachCandidate now)).filterMap rowIntent := by
  simp [check_sla_breaches, check_sla_breaches_run, scanGo_none_eq]

/-- The success report of a fault-free scan carries the two counters. -/
theorem check_sla_breaches_report (now : Int) (db : List ScanRow) :
    (check_sla_breaches now db).report =
      some ((db.filter (breachCandidate now)).length,
        ((db.filter (breachCandidate now)).filterMap rowIntent).length) := by
  simp [check_sla_breaches, check_sla_breaches_run, scanGo_none_eq]

/-- A row whose SLA already has `breach_notified_at` set never matches the
candidate query. -/
theorem breachCandidate_of_notified (now : Int) (r : ScanRow)
    (h : r.sla.breach_notified_at ≠ none) : breachCandidate now r = false := by
  simp [breachCandidate]
  intro _ _
  exact h

/-- A candidate row's committed state carries the scan time in
`breach_notified_at` and status BREACHED. -/
theorem stepRow_of_candidate (now : Int) (r : ScanRow)
    (h : breachCandidate now r = true) :
    (stepRow now r).sla.breach_notified_at = some now ∧
      (stepRow now r).sla.status = SLAStatus.BREACHED := by
  simp [stepRow, h, markBreached]

/-- `stepRow` only rewrites the SLA columns. -/
theorem stepRow_incident (now : Int) (r : ScanRow) :
    (stepRow now r).incident = r.incident ∧ (stepRow now r).assignee = r.assignee := by
  unfold stepRow
  split <;> simp

/-- An emitted intent is addressed at the row's incident. -/
theorem rowIntent_incident_id (r : ScanRow) (it : BreachIntent)
    (h : rowIntent r = some it) : it.incident_id = r.incident.id := by
  unfold rowIntent at h
  cases ha : r.assignee with
  | none => simp [ha] at h
  | some u =>
      simp [ha] at h
      by_cases he : u.email = "" <;> simp [he] at h
      exact h ▸ rfl

/-- Behaviour of the row loop when the `(k+1)`-th notification queueing
raises: the loop ends in the failed state, with exactly the notifications
queued before the failure. -/
theorem scanGo_some_eq (now : Int) (k : Nat) (rows : List ScanRow) :
    ∀ acc : ScanState, acc.notifications_sent ≤ k →
      k - acc.notifications_sent <
        ((rows.filter (breachCandidate now)).filterMap rowIntent).length →
      (scanGo now (some k) rows acc).failed = true ∧
        (scanGo now (some k) rows acc).emitted =
          acc.emitted ++
            ((rows.filter (breachCandidate now)).filterMap rowIntent).take
              (k - acc.notifications_sent) := by
  induction rows with
  | nil => intro acc _ hlt; simp at hlt
  | cons r rest ih =>
    intro acc hk hlt
    cases hc : breachCandidate now r with
    | true =>
        cases hi : rowIntent r with
        | some intent =>
            by_cases hf : k = acc.notifications_sent
            · simp only [scanGo, hc, hi, if_true]
              rw [if_pos (by simp [hf])]
              simp [hf, List.filter_cons, hc, hi]
            · have hlt' : acc.notifications_sent < k := lt_of_le_of_ne hk (fun h => hf h.symm)
              simp only [scanGo, hc, hi, if_true]
              rw [if_neg (by simp; omega)]
              have hrec := ih
                { acc with
                    pending := acc.pending ++ [{ r with sla := markBreached now r.sla }]
                    breaches_detected := acc.breaches_detected + 1
                    emitted := acc.emitted ++ [intent]
                    notifications_sent := acc.notifications_sent + 1 }
                (by simp; omega)
                (by
                  simp only [List.filter_cons, hc, if_true, List.filterMap_cons, hi,
                    List.length_cons] at hlt
                  simp
                  omega)
              refine ⟨hrec.1, ?_⟩
              rw [hrec.2]
              simp only [List.filter_cons, hc, if_true, List.filterMap_cons, hi]
              have hsub : k - acc.notifications_sent = (k - (acc.notifications_sent + 1)) + 1 := by
                omega
              rw [hsub, List.take_succ_cons]
              simp [List.append_assoc]
        | none =>
            simp only [scanGo, hc, hi, if_true]
            have hrec := ih
              { acc with
                  pending := acc.pending ++ [{ r with sla := markBreached now r.sla }]
                  breaches_detected := acc.breaches_detected + 1 }
              (by simpa using hk)
              (by
                simp only [List.filter_cons, hc, if_true, List.filterMap_cons, hi] at hlt
                simpa using hlt)
            refine ⟨hrec.1, ?_⟩
            rw [hrec.2]
            simp [List.filter_cons, hc, hi]
    | false =>
        simp only [scanGo, hc, Bool.false_eq_true, if_false]
        have hrec := ih { acc with pending := acc.pending ++ [r] }
          (by simpa using hk)
          (by
            simp only [List.filter_cons, hc, Bool.false_eq_true, if_false] at hlt
            simpa using hlt)
        refine ⟨hrec.1, ?_⟩
        rw [hrec.2]
        simp [List.filter_cons, hc]

/-- Sum of the counts of two incompatible predicates, each entailing a third,
is bounded by the count of the third. -/
theorem countP_disjoint_le {α : Type} (l : List α) (a b c : α → Bool)
    (hab : ∀ x, ¬(a x = true ∧ b x = true))
    (hac : ∀ x, a x = true → c x = true)
    (hbc : ∀ x, b x = true → c x = true) :
    l.countP a + l.countP b ≤ l.countP c := by
  induction l with
  | nil => simp
  | cons x xs ih =>
    simp only [List.countP_cons]
    have h1 := hab x
    have h2 := hac x
    have h3 := hbc x
    cases ha : a x <;> cases hb : b x <;> cases hcx : c x <;> simp_all <;> omega

/-- In a list whose images under `f` are pairwise distinct, at most one
element maps to any given value. -/
theorem countP_key_le_one {α : Type} (l : List α) (f : α → Nat)
    (h : (l.map f).Nodup) (i : Nat) :
    l.countP (fun x => f x == i) ≤ 1 := by
  induction l with
  | nil => simp
  | cons x xs ih =>
    rw [List.map_cons, List.nodup_cons] at h
    rw [List.countP_cons]
    by_cases hx : f x = i
    · have hz : xs.countP (fun y => f y == i) = 0 := by
        rw [List.countP_eq_zero]
        intro y hy
        simp only [beq_iff_eq]
        intro hfy
        apply h.1
        have : f x = f y := by rw [hfy, hx]
        exact this ▸ List.mem_map_of_mem f hy
      simp [hz, hx]
    · simpa [hx] using ih h.2

/-! Claim theorems. -/

/-- Claim C4 (amended): `is_response_breached now` holds iff `response_at`
is unset and `now` is strictly past `response_deadline`;
`is_resolution_breached now` holds iff the status is not MET and `now` is
strictly past the nominal `resolution_deadline` — the accumulated paused
duration is NOT added to the deadline by this query. -/
theorem breach_queries_characterization (now : Int) (s : SLA) :
    (is_response_breached now s = true ↔
      s.response_at = none ∧ s.response_deadline < now)
  ∧ (is_resolution_breached now s = true ↔
      s.status ≠ SLAStatus.MET ∧ s.resolution_deadline < now) := by
  constructor
  · unfold is_response_breached
    cases s.response_at <;> simp
  · unfold is_resolution_breached
    by_cases h : s.status = SLAStatus.MET <;> simp [h]

/-- Claim C4 counterexample: an ACTIVE SLA past its nominal resolution
deadline but within the pause-adjusted deadline (`12 ≤ 10 + 5`) is still
reported breached by `is_resolution_breached`, so the pause-adjusted
reading of the query is false. -/
theorem is_resolution_breached_ignores_pause_credit :
    is_resolution_breached 12 pausedCreditSLA = true
  ∧ pausedCreditSLA.status ≠ SLAStatus.MET
  ∧ ¬(pausedCreditSLA.resolution_deadline + pausedCreditSLA.paused_duration < 12) := by
  decide

/-- Claim C7: `get_sla_deadlines` is total and deterministic; each of the
four known priorities maps to its configured hours (with the source's
defaults CRITICAL 1/4, HIGH 4/24, MEDIUM 8/72, LOW 24/168), and any string
that does not lower-case to one of the four yields the MEDIUM values. -/
theorem get_sla_deadlines_total_medium_default :
    (∀ st : Settings,
      get_sla_deadlines st "critical" =
        (st.sla_critical_response, st.sla_critical_resolution)
    ∧ get_sla_deadlines st "high" = (st.sla_high_response, st.sla_high_resolution)
    ∧ get_sla_deadlines st "medium" =
        (st.sla_medium_response, st.sla_medium_resolution)
    ∧ get_sla_deadlines st "low" = (st.sla_low_response, st.sla_low_resolution))
  ∧ get_sla_deadlines defaultSettings "critical" = (1, 4)
  ∧ get_sla_deadlines defaultSettings "high" = (4, 24)
  ∧ get_sla_deadlines defaultSettings "medium" = (8, 72)
  ∧ get_sla_deadlines defaultSettings "low" = (24, 168)
  ∧ (∀ st : Settings, ∀ p : String,
      pyLower p ≠ "critical" → pyLower p ≠ "high" → pyLower p ≠ "medium" →
        pyLower p ≠ "low" →
        get_sla_deadlines st p = (st.sla_medium_response, st.sla_medium_resolution)) := by
  refine ⟨fun st => ⟨rfl, rfl, rfl, rfl⟩, rfl, rfl, rfl, rfl, ?_⟩
  intro st p h1 h2 h3 h4
  simp [get_sla_deadlines, h1, h2, h3, h4]

/-- Claim C7 witness: an unrecognized priority string falls back to the
MEDIUM policy. -/
theorem get_sla_deadlines_total_medium_default_inst :
    get_sla_deadlines defaultSettings "Urgent" = (8, 72) := by
  exact get_sla_deadlines_total_medium_default.2.2.2.2.2 defaultSettings "Urgent"
    (by decide) (by decide) (by decide) (by decide)

/-- Claim C8: `create_incident` creates, together with the incident, exactly
one SLA (the returned pair), with status ACTIVE and deadlines equal to the
creation time plus the policy's response/resolution hours for the incident's
priority; with the default policy a CRITICAL incident gets `now + 1h` and
`now + 4h`. -/
theorem create_incident_sla_policy_deadlines (st : Settings) (now : Int)
    (freshId : Nat) (d : IncidentCreateData) (rid : Nat) :
    ((create_incident st now freshId d rid).2.status = SLAStatus.ACTIVE
  ∧ (create_incident st now freshId d rid).2.incident_id =
      (create_incident st now freshId d rid).1.id
  ∧ (create_incident st now freshId d rid).2.response_deadline =
      add_hours now (get_sla_deadlines st (priorityValue d.priority)).1
  ∧ (create_incident st now freshId d rid).2.resolution_deadline =
      add_hours now (get_sla_deadlines st (priorityValue d.priority)).2
  ∧ (create_incident st now freshId d rid).1.status = IncidentStatus.OPEN
  ∧ (create_incident st now freshId d rid).1.priority = d.priority)
  ∧ ((create_incident defaultSettings now freshId
        { d with priority := IncidentPriority.CRITICAL } rid).2.response_deadline =
      now + 3600
  ∧ (create_incident defaultSettings now freshId
        { d with priority := IncidentPriority.CRITICAL } rid).2.resolution_deadline =
      now + 14400) := by
  refine ⟨⟨rfl, rfl, rfl, rfl, rfl, rfl⟩, ?_, ?_⟩ <;>
    simp [create_incident, add_hours, get_sla_deadlines, priorityValue, defaultSettings,
      show pyLower "critical" = "critical" from by decide]

/-- Claim C10: resolving a live incident that has no SLA attached succeeds:
the status becomes RESOLVED, `resolved_at` is stamped when it was unset (and
kept otherwise), and the updated incident is returned — the SLA side effect
is skipped rather than failing. -/
theorem update_status_resolved_without_sla (db : List Incident) (iid : Nat)
    (now : Int) (inc : Incident)
    (h : get_incident db iid = some inc) (hs : inc.sla = none) :
    update_status db iid IncidentStatus.RESOLVED now =
      some { inc with
        status := IncidentStatus.RESOLVED
        resolved_at := if inc.resolved_at = none then some now else inc.resolved_at } := by
  unfold update_status applyStatusUpdate
  rw [h]
  by_cases hr : inc.resolved_at = none <;> simp [hr, hs]

/-- Claim C10 witness: resolving the concrete SLA-less incident returns it
updated. -/
theorem update_status_resolved_without_sla_inst :
    update_status [slaLessIncident] 4 IncidentStatus.RESOLVED 99 =
      some { slaLessIncident with
        status := IncidentStatus.RESOLVED, resolved_at := some 99 } := by
  have h := update_status_resolved_without_sla [slaLessIncident] 4 99 slaLessIncident
    (by decide) (by decide)
  simpa [slaLessIncident] using h

/-- Claim C1 counterexample: resolving at time 20, strictly past the
effective resolution deadline `10 + 0` of its ACTIVE SLA, still sets the SLA
status to MET, so the claimed deadline condition on the MET transition is
false. -/
theorem update_status_late_resolution_marks_met :
    lateSLA.status = SLAStatus.ACTIVE
  ∧ lateSLA.resolution_deadline + lateSLA.paused_duration < 20
  ∧ update_status [lateIncident] 1 IncidentStatus.RESOLVED 20 =
      some { lateIncident with
        status := IncidentStatus.RESOLVED
        resolved_at := some 20
        sla := some { lateSLA with status := SLAStatus.MET } } := by
  decide

/-- Claim C1 (amended): resolving a live, not-yet-resolved incident sets its
SLA's status to MET unconditionally — whatever the SLA's current status and
whether or not the resolution time is within the effective resolution
deadline; no deadline comparison is performed. -/
theorem update_status_resolution_marks_met_unconditionally
    (db : List Incident) (iid : Nat) (now : Int) (inc : Incident) (s : SLA)
    (h : get_incident db iid = some inc) (hr : inc.resolved_at = none)
    (hs : inc.sla = some s) :
    update_status db iid IncidentStatus.RESOLVED now =
      some { inc with
        status := IncidentStatus.RESOLVED
        resolved_at := some now
        sla := some { s with status := SLAStatus.MET } } := by
  unfold update_status applyStatusUpdate
  rw [h]
  simp [hr, hs]

/-- Claim C1 witness: the amended transition at the concrete late-resolution
state. -/
theorem update_status_resolution_marks_met_unconditionally_inst :
    update_status [lateIncident] 1 IncidentStatus.RESOLVED 20 =
      some { lateIncident with
        status := IncidentStatus.RESOLVED
        resolved_at := some 20
        sla := some { lateSLA with status := SLAStatus.MET } } := by
  have h := update_status_resolution_marks_met_unconditionally [lateIncident] 1 20
    lateIncident lateSLA (by decide) (by decide) (by decide)
  simpa using h

/-- Claim C9: from ACTIVE, `pause` at `t` then `resume` at `t + D` adds
exactly `D` to `paused_duration`, clears `paused_at`, and returns the status
to ACTIVE; `resume` on any SLA that is not PAUSED fails with an explicit
error (and, being pure, changes nothing). -/
theorem pause_resume_adds_paused_duration (s : SLA) (t D : Int)
    (h : s.status = SLAStatus.ACTIVE) :
    pause t s = Except.ok { s with status := SLAStatus.PAUSED, paused_at := some t }
  ∧ resume (t + D) { s with status := SLAStatus.PAUSED, paused_at := some t } =
      Except.ok { s with
        status := SLAStatus.ACTIVE
        paused_at := none
        paused_duration := s.paused_duration + D }
  ∧ (∀ s2 : SLA, s2.status ≠ SLAStatus.PAUSED →
      resume t s2 = Except.error "resume: SLA is not PAUSED") := by
  refine ⟨by simp [pause, h], ?_, ?_⟩
  · simp only [resume]
    have : t + D - t = D := by omega
    rw [this]
  · intro s2 h2
    unfold resume
    cases hst : s2.status <;> cases hp : s2.paused_at <;> simp_all

/-- Claim C9 witness: pausing the concrete overdue SLA at 7 and resuming at
12 accumulates 5 seconds of paused duration. -/
theorem pause_resume_adds_paused_duration_inst :
    resume 12 { overdueSLA with status := SLAStatus.PAUSED, paused_at := some 7 } =
      Except.ok { overdueSLA with
        status := SLAStatus.ACTIVE
        paused_at := none
        paused_duration := 5 } := by
  have h := (pause_resume_adds_paused_duration overdueSLA 7 5 (by decide)).2.1
  simpa [overdueSLA] using h

/-- Claim C2: over rows with pairwise distinct incident ids, two successive
breach scans of otherwise unmodified data emit at most one breach
notification intent per SLA in total; the first scan stamps
`breach_notified_at` on every candidate, and any row with
`breach_notified_at` set never matches the candidate query again. -/
theorem breach_scan_twice_at_most_one_intent (db : List ScanRow)
    (now1 now2 : Int) (hids : (db.map (fun r => r.incident.id)).Nodup)
    (iid : Nat) :
    ((check_sla_breaches now1 db).intents ++
        (check_sla_breaches now2 ((check_sla_breaches now1 db).state)).intents).countP
        (fun it => it.incident_id == iid) ≤ 1
  ∧ (check_sla_breaches now1 db).state = db.map (stepRow now1)
  ∧ (∀ r : ScanRow, breachCandidate now1 r = true →
      (stepRow now1 r).sla.breach_notified_at = some now1)
  ∧ (∀ r : ScanRow, r.sla.breach_notified_at ≠ none →
      breachCandidate now2 r = false) := by
  refine ⟨?_, check_sla_breaches_state now1 db,
    fun r h => (stepRow_of_candidate now1 r h).1,
    fun r h => breachCandidate_of_notified now2 r h⟩
  rw [List.countP_append, check_sla_breaches_intents, check_sla_breaches_state,
    check_sla_breaches_intents, List.countP_filterMap, List.countP_filterMap,
    List.countP_filter, List.countP_filter, List.countP_map]
  have hkey := countP_key_le_one db (fun r => r.incident.id) hids iid
  refine le_trans (countP_disjoint_le db _ _ (fun r => r.incident.id == iid)
    ?_ ?_ ?_) hkey
  · rintro r ⟨hA, hB⟩
    rw [Function.comp_apply, Bool.and_eq_true] at hB
    rw [Bool.and_eq_true] at hA
    have hcand : breachCandidate now1 r = true := hA.2
    have hset := (stepRow_of_candidate now1 r hcand).1
    have : breachCandidate now2 (stepRow now1 r) = false :=
      breachCandidate_of_notified now2 _ (by rw [hset]; exact Option.some_ne_none _)
    rw [hB.2] at this
    cases this
  · intro r hA
    rw [Bool.and_eq_true] at hA
    cases hri : rowIntent r with
    | none => rw [hri] at hA; simp at hA
    | some it =>
        rw [hri] at hA
        have hid := rowIntent_incident_id r it hri
        simpa [hid] using hA.1
  · intro r hB
    rw [Function.comp_apply, Bool.and_eq_true] at hB
    cases hri : rowIntent (stepRow now1 r) with
    | none => rw [hri] at hB; simp at hB
    | some it =>
        rw [hri] at hB
        have hid := rowIntent_incident_id _ it hri
        rw [(stepRow_incident now1 r).1] at hid
        simpa [hid] using hB.1

/-- Claim C2 witness: two immediate scans of a single-row database emit at
most one intent for that incident. -/
theorem breach_scan_twice_at_most_one_intent_inst :
    ((check_sla_breaches 100 [overdueRow]).intents ++
        (check_sla_breaches 100
          ((check_sla_breaches 100 [overdueRow]).state)).intents).countP
        (fun it => it.incident_id == 11) ≤ 1 :=
  (breach_scan_twice_at_most_one_intent [overdueRow] 100 100 (by decide) 11).1

/-- Claim C3 counterexample: with two overdue assigned rows and the second
notification queueing failing, the first row was a matched candidate whose
notification was already queued, yet the final state keeps both SLAs ACTIVE
(the whole batch is rolled back) and the run reports no counts — refuting
per-SLA atomic commits and the claimed count reporting. -/
theorem breach_scan_failure_rolls_back_prior_rows :
    breachCandidate 100 overdueRow = true
  ∧ (rowIntent overdueRow).isSome = true
  ∧ (check_sla_breaches_run 100 (some 1) [overdueRow, overdueRow2]).intents.length = 1
  ∧ ((check_sla_breaches_run 100 (some 1) [overdueRow, overdueRow2]).state.map
      (fun r => r.sla.status)) = [SLAStatus.ACTIVE, SLAStatus.ACTIVE]
  ∧ (check_sla_breaches_run 100 (some 1) [overdueRow, overdueRow2]).report = none := by
  decide

/-- Claim C3 (amended): the scan batch is one atomic unit: when the
`(k+1)`-th notification queueing fails, the run keeps none of its SLA
transitions (the session never commits, so the state is unchanged), reports
an error without counts, and only the `k` notification intents queued before
the failure remain emitted; a fault-free run commits every candidate's
transition and reports the counts of candidates found and notifications
emitted. -/
theorem breach_scan_batch_atomic_failure (now : Int) (db : List ScanRow)
    (k : Nat)
    (hk : k < ((db.filter (breachCandidate now)).filterMap rowIntent).length) :
    ((check_sla_breaches_run now (some k) db).state = db
  ∧ (check_sla_breaches_run now (some k) db).report = none
  ∧ (check_sla_breaches_run now (some k) db).intents =
      ((db.filter (breachCandidate now)).filterMap rowIntent).take k)
  ∧ ((check_sla_breaches_run now none db).state = db.map (stepRow now)
  ∧ (check_sla_breaches_run now none db).report =
      some ((db.filter (breachCandidate now)).length,
        ((db.filter (breachCandidate now)).filterMap rowIntent).length)) := by
  have hsome := scanGo_some_eq now k db
    { pending := [], emitted := [], breaches_detected := 0
      notifications_sent := 0, failed := false }
    (by simp) (by simpa using hk)
  constructor
  · unfold check_sla_breaches_run
    simp only [hsome.1, if_true, hsome.2]
    simp
  · constructor
    · exact check_sla_breaches_state now db
    · exact check_sla_breaches_report now db

/-- Claim C3 witness: the amended failure semantics at the concrete
two-candidate database. -/
theorem breach_scan_batch_atomic_failure_inst :
    (check_sla_breaches_run 100 (some 1) [overdueRow, overdueRow2]).state =
      [overdueRow, overdueRow2]
  ∧ (check_sla_breaches_run 100 (some 1) [overdueRow, overdueRow2]).report = none := by
  have h := breach_scan_batch_atomic_failure 100 [overdueRow, overdueRow2] 1 (by decide)
  exact ⟨h.1.1, h.1.2.1⟩

/-- Claim C5: the breach query has no soft-delete filter — a soft-deleted
incident's ACTIVE overdue SLA is selected, transitioned to BREACHED, and a
breach notification intent is emitted for it. -/
theorem breach_scan_selects_soft_deleted_incident :
    deletedIncidentRow.incident.deleted_at = some 50
  ∧ breachCandidate 100 deletedIncidentRow = true
  ∧ ((check_sla_breaches 100 [deletedIncidentRow]).state.map
      (fun r => r.sla.status)) = [SLAStatus.BREACHED]
  ∧ (check_sla_breaches 100 [deletedIncidentRow]).intents.length = 1 := by
  decide

/-- Claim C6 (amended): every matched row is marked BREACHED with
`breach_notified_at = now`; the breach type is "Response" exactly when
`response_at` is unset (so a simultaneous double breach reports the response
breach), else "Resolution"; and the single notification intent is emitted
iff the incident has an assignee with a non-empty email — with no assignee
(or an empty email) the breach is still recorded and nothing fails. -/
theorem breach_pass_marks_and_notifies (now : Int) (r : ScanRow)
    (h : breachCandidate now r = true) :
    (stepRow now r).sla.status = SLAStatus.BREACHED
  ∧ (stepRow now r).sla.breach_notified_at = some now
  ∧ (r.sla.response_at = none → breachType r.sla = "Response")
  ∧ (∀ t : Int, r.sla.response_at = some t → breachType r.sla = "Resolution")
  ∧ ((rowIntent r).isSome = true ↔ ∃ u, r.assignee = some u ∧ u.email ≠ "") := by
  refine ⟨(stepRow_of_candidate now r h).2, (stepRow_of_candidate now r h).1,
    ?_, ?_, ?_⟩
  · intro hr; simp [breachType, hr]
  · intro t hr; simp [breachType, hr]
  · unfold rowIntent
    cases ha : r.assignee with
    | none => simp [ha]
    | some u =>
        by_cases he : u.email = "" <;> simp [ha, he]

/-- Claim C6 counterexample: a matched row whose assignee exists but has an
empty email gets its breach recorded while no notification intent is
emitted, refuting emission-iff-assignee-exists. -/
theorem breach_pass_empty_email_no_intent :
    breachCandidate 100 emptyEmailRow = true
  ∧ emptyEmailRow.assignee.isSome = true
  ∧ rowIntent emptyEmailRow = none
  ∧ (check_sla_breaches 100 [emptyEmailRow]).intents = []
  ∧ ((check_sla_breaches 100 [emptyEmailRow]).state.map
      (fun r => r.sla.status)) = [SLAStatus.BREACHED] := by
  decide

/-- Claim C6 witness: the amended per-match behaviour at the concrete
assigned overdue row. -/
theorem breach_pass_marks_and_notifies_inst :
    (stepRow 100 overdueRow).sla.status = SLAStatus.BREACHED
  ∧ (rowIntent overdueRow).isSome = true := by
  have h := breach_pass_marks_and_notifies 100 overdueRow (by decide)
  exact ⟨h.1, h.2.2.2.2.mpr ⟨{ id := 2, email := "oncall@example.com" }, rfl, by decide⟩⟩

end SLATracker
